import Mathlib

/-!
Verification of the competition tool module and the credential resolver of the
Kaggle MCP server (`src/tools/competitions.py`, `src/server.py`).

The Python code is shallowly embedded: dynamic Python values become the
inductive type `PyVal`; exceptions become `Except String`; the underlying
Kaggle client (`api`) and the operating system are oracles passed as explicit
parameters; observable side effects (client calls, temp-directory creation and
removal, credential-file accesses) are recorded in an explicit event list.
-/

set_option maxHeartbeats 1000000
set_option maxRecDepth 100000

namespace KaggleMCP

/-- Dynamic Python values as they appear at the competition-tool boundary:
`None`, booleans, integers, strings, opaque datetime objects (carrying their
`str()` rendering), lists, dicts, and API model objects (class name plus
attribute dictionary, read via `getattr`). -/
inductive PyVal where
  | none
  | bool (b : Bool)
  | int (n : Int)
  | str (s : String)
  | datetime (rendered : String)
  | list (xs : List PyVal)
  | dict (entries : List (String × PyVal))
  | obj (cls : String) (attrs : List (String × PyVal))

/-- Python truthiness (`if v:`): `None`, `False`, `0`, empty strings and empty
containers are falsy; datetime objects and model objects are always truthy. -/
def truthy : PyVal → Bool
  | .none => false
  | .bool b => b
  | .int n => n != 0
  | .str s => s != ""
  | .datetime _ => true
  | .list xs => xs.length != 0
  | .dict es => es.length != 0
  | .obj _ _ => true

/-- `getattr(v, name, default)`: attribute lookup on an API model object;
every other value has none of the attribute names used by this module, so the
default is returned. -/
def pyGetattr (v : PyVal) (name : String) (dflt : PyVal) : PyVal :=
  match v with
  | .obj _ attrs =>
    match attrs.lookup name with
    | some w => w
    | Option.none => dflt
  | _ => dflt

/-- `isinstance(v, dict)`. -/
def isDict : PyVal → Bool
  | .dict _ => true
  | _ => false

/-- `isinstance(v, list)`. -/
def isList : PyVal → Bool
  | .list _ => true
  | _ => false

/-- `key in d` for a dict value (key membership); only ever evaluated on
dicts in the leaderboard code thanks to `and` short-circuiting. -/
def dictHasKey : PyVal → String → Bool
  | .dict es, k => (es.lookup k).isSome
  | _, _ => false

mutual

/-- Python `repr`, used by `str()` on containers. -/
def pyRepr : PyVal → String
  | .none => "None"
  | .bool true => "True"
  | .bool false => "False"
  | .int n => toString n
  | .str s => "\x27" ++ s ++ "\x27"
  | .datetime r => r
  | .list xs => "[" ++ String.intercalate ", " (pyReprList xs) ++ "]"
  | .dict es => "\x7b" ++ String.intercalate ", " (pyReprEntries es) ++ "\x7d"
  | .obj cls _ => "<" ++ cls ++ " object>"

def pyReprList : List PyVal → List String
  | [] => []
  | x :: xs => pyRepr x :: pyReprList xs

def pyReprEntries : List (String × PyVal) → List String
  | [] => []
  | (k, v) :: es => ("\x27" ++ k ++ "\x27: " ++ pyRepr v) :: pyReprEntries es

end

/-- Python `str(v)`: the value itself for strings, its rendering for
datetimes, `repr` otherwise. -/
def pyStr : PyVal → String
  | .str s => s
  | v => pyRepr v

/-- One hexadecimal digit. -/
def hexDigit (n : Nat) : Char :=
  if n < 10 then Char.ofNat (48 + n) else Char.ofNat (87 + n)

/-- Four-digit hexadecimal rendering, for `\uXXXX` escapes. -/
def hex4 (n : Nat) : String :=
  String.mk [hexDigit (n / 4096 % 16), hexDigit (n / 256 % 16),
             hexDigit (n / 16 % 16), hexDigit (n % 16)]

/-- `json.dumps` escaping of a single character (default `ensure_ascii`). -/
def jsonEscapeChar (c : Char) : String :=
  if c = '"' then "\\\""
  else if c = '\\' then "\\\\"
  else if c = '\n' then "\\n"
  else if c = '\t' then "\\t"
  else if c = '\r' then "\\r"
  else if c.toNat < 32 ∨ c.toNat > 126 then "\\u" ++ hex4 c.toNat
  else String.singleton c

/-- `json.dumps` escaping of a string body. -/
def jsonEscape (s : String) : String :=
  String.join (s.toList.map jsonEscapeChar)

/-- A run of `n` spaces, for `indent=2` layout. -/
def spaces (n : Nat) : String :=
  String.mk (List.replicate n ' ')

mutual

/-- `json.dumps(v, indent=2)` relative to the current absolute indentation
`ind`; serializing a datetime or an API model object raises `TypeError`,
modelled as `.error` with CPython's message. -/
def dumpsAt : PyVal → Nat → Except String String
  | .none, _ => .ok "null"
  | .bool true, _ => .ok "true"
  | .bool false, _ => .ok "false"
  | .int n, _ => .ok (toString n)
  | .str s, _ => .ok ("\"" ++ jsonEscape s ++ "\"")
  | .datetime _, _ => .error "Object of type datetime is not JSON serializable"
  | .obj cls _, _ => .error ("Object of type " ++ cls ++ " is not JSON serializable")
  | .list [], _ => .ok "[]"
  | .list (x :: xs), ind =>
    match dumpsItems (x :: xs) (ind + 2) with
    | .error e => .error e
    | .ok items =>
      .ok ("[\n" ++ String.intercalate ",\n" (items.map (fun s => spaces (ind + 2) ++ s))
        ++ "\n" ++ spaces ind ++ "]")
  | .dict [], _ => .ok "\x7b\x7d"
  | .dict ((k, v) :: es), ind =>
    match dumpsEntries ((k, v) :: es) (ind + 2) with
    | .error e => .error e
    | .ok items =>
      .ok ("\x7b\n" ++ String.intercalate ",\n" (items.map (fun s => spaces (ind + 2) ++ s))
        ++ "\n" ++ spaces ind ++ "\x7d")

def dumpsItems : List PyVal → Nat → Except String (List String)
  | [], _ => .ok []
  | x :: xs, ind =>
    match dumpsAt x ind with
    | .error e => .error e
    | .ok s =>
      match dumpsItems xs ind with
      | .error e => .error e
      | .ok ss => .ok (s :: ss)

def dumpsEntries : List (String × PyVal) → Nat → Except String (List String)
  | [], _ => .ok []
  | (k, v) :: es, ind =>
    match dumpsAt v ind with
    | .error e => .error e
    | .ok s =>
      match dumpsEntries es ind with
      | .error e => .error e
      | .ok ss => .ok (("\"" ++ jsonEscape k ++ "\": " ++ s) :: ss)

end

/-- `json.dumps(v, indent=2)`. -/
def dumps (v : PyVal) : Except String String :=
  dumpsAt v 0

/-- The endpoints of the underlying Kaggle client touched by the competition
tools. -/
inductive ApiCall where
  | competitionsList
  | competitionGet
  | competitionDownloadFile
  | competitionDownloadFiles
  | competitionListFiles
  | competitionSubmissions
  | competitionLeaderboardView
  | competitionSubmit
  deriving Repr, DecidableEq

/-- Observable side effects of a tool operation or of the credential
resolver: a call into the underlying client, `tempfile.mkdtemp`,
`shutil.rmtree`, a `Path.exists` probe, and `open` of a credential file. -/
inductive Event where
  | call (c : ApiCall)
  | mkdtemp (dir : String)
  | rmtree (dir : String)
  | pathProbe (p : String)
  | openFile (p : String)
  deriving Repr, DecidableEq

/-- The gate's result: `ensure_authenticated() -> (ok, message)`. Its body
lives in `tools/auth.py`; per its contract it never raises, so the pair is
the whole interface the competition tools see. -/
abbrev Gate := Bool × String

/-- What every embedded tool operation produces: the value returned to the
host (`.error` would be an exception escaping the operation) together with
the trace of observable side effects. -/
abbrev OpResult := Except String String × List Event

/-- The dict literal built for each competition in `competitions_list`
(src/tools/competitions.py lines 48-60). -/
def projectCompetition (comp : PyVal) : List (String × PyVal) :=
  let deadline_val := pyGetattr comp "deadline" .none
  [("ref", pyGetattr comp "ref" .none),
   ("title", pyGetattr comp "title" .none),
   ("url", pyGetattr comp "url" .none),
   ("category", pyGetattr comp "category" .none),
   ("deadline", if truthy deadline_val then .str (pyStr deadline_val) else .none),
   ("reward", pyGetattr comp "reward" .none),
   ("teamCount", pyGetattr comp "teamCount" .none),
   ("userHasEntered", pyGetattr comp "userHasEntered" .none),
   ("description", pyGetattr comp "description" .none)]

/-- The dict literal built in `competition_details` (lines 85-99). -/
def projectCompetitionDetails (comp : PyVal) : List (String × PyVal) :=
  let deadline_val := pyGetattr comp "deadline" .none
  [("ref", pyGetattr comp "ref" .none),
   ("title", pyGetattr comp "title" .none),
   ("url", pyGetattr comp "url" .none),
   ("category", pyGetattr comp "category" .none),
   ("deadline", if truthy deadline_val then .str (pyStr deadline_val) else .none),
   ("reward", pyGetattr comp "reward" .none),
   ("teamCount", pyGetattr comp "teamCount" .none),
   ("userHasEntered", pyGetattr comp "userHasEntered" .none),
   ("description", pyGetattr comp "description" .none),
   ("evaluationMetric", pyGetattr comp "evaluationMetric" .none),
   ("isKernelsSubmissionsOnly", pyGetattr comp "isKernelsSubmissionsOnly" .none),
   ("tags", pyGetattr comp "tags" (.list []))]

/-- The dict literal built for each file in `competition_list_files`
(lines 169-176). -/
def projectFile (file_obj : PyVal) : List (String × PyVal) :=
  let creation_date_val := pyGetattr file_obj "creationDate" .none
  [("name", pyGetattr file_obj "name" .none),
   ("size", pyGetattr file_obj "size" .none),
   ("creationDate", if truthy creation_date_val then .str (pyStr creation_date_val) else .none)]

/-- The dict literal built for each submission in `competition_submissions`
(lines 201-212). -/
def projectSubmission (sub : PyVal) : List (String × PyVal) :=
  let date_val := pyGetattr sub "date" .none
  [("ref", pyGetattr sub "ref" .none),
   ("fileName", pyGetattr sub "fileName" .none),
   ("date", if truthy date_val then .str (pyStr date_val) else .none),
   ("description", pyGetattr sub "description" .none),
   ("status", pyGetattr sub "status" .none),
   ("publicScore", pyGetattr sub "publicScore" .none),
   ("privateScore", pyGetattr sub "privateScore" .none)]

/-- The dict literal built for each leaderboard entry in
`competition_leaderboard` (lines 255-264). -/
def projectLeaderboardEntry (entry : PyVal) : List (String × PyVal) :=
  let submission_date_val := pyGetattr entry "submissionDate" .none
  [("teamId", pyGetattr entry "teamId" .none),
   ("teamName", pyGetattr entry "teamName" .none),
   ("submissionDate", if truthy submission_date_val then .str (pyStr submission_date_val) else .none),
   ("score", pyGetattr entry "score" .none),
   ("rank", pyGetattr entry "rank" .none)]

/-- `competitions_list` (lines 14-67). The client call is an oracle: the list
of competition objects it would yield, or the exception it would raise. The
whole client call and serialization sit inside one `try`, so any raise is
stringified with the fixed prefix. -/
def competitions_list (gate : Gate) (apiRes : Except String (List PyVal)) : OpResult :=
  if gate.1 = false then (.ok gate.2, [])
  else
    match apiRes with
    | .error e => (.ok ("Error listing competitions: " ++ e), [.call .competitionsList])
    | .ok comps =>
      match dumps (.list (comps.map (fun comp => .dict (projectCompetition comp)))) with
      | .ok s => (.ok s, [.call .competitionsList])
      | .error e => (.ok ("Error listing competitions: " ++ e), [.call .competitionsList])

/-- `competition_details` (lines 69-102). -/
def competition_details (gate : Gate) (apiRes : Except String PyVal) : OpResult :=
  if gate.1 = false then (.ok gate.2, [])
  else
    match apiRes with
    | .error e => (.ok ("Error getting competition details: " ++ e), [.call .competitionGet])
    | .ok comp =>
      match dumps (.dict (projectCompetitionDetails comp)) with
      | .ok s => (.ok s, [.call .competitionGet])
      | .error e => (.ok ("Error getting competition details: " ++ e), [.call .competitionGet])

/-- `competition_download_files` (lines 104-148). `tmpName` is the directory
`tempfile.mkdtemp()` would create; `fileRes` and `allRes` are the outcomes of
the two possible client calls; `rmtreeRaises` is whether cleanup would fail —
the code passes `ignore_errors=True` and guards with `except OSError`, so the
flag never changes the outcome. -/
def competition_download_files (gate : Gate) (path file_name : String)
    (tmpName : String) (fileRes allRes : Except String Unit)
    (rmtreeRaises : Bool) : OpResult :=
  if gate.1 = false then (.ok gate.2, [])
  else
    let use_temp := path = ""
    let path' := if path = "" then tmpName else path
    let mkEvs : List Event := if path = "" then [.mkdtemp tmpName] else []
    if file_name != "" then
      match fileRes with
      | .ok _ =>
        (.ok ("Downloaded file \x27" ++ file_name ++ "\x27 to " ++ path'),
         mkEvs ++ [.call .competitionDownloadFile])
      | .error e =>
        (.ok ("Error downloading competition files: " ++ e),
         mkEvs ++ [.call .competitionDownloadFile]
           ++ (if use_temp then [Event.rmtree path'] else []))
    else
      match allRes with
      | .ok _ =>
        (.ok ("Downloaded all competition files to " ++ path'),
         mkEvs ++ [.call .competitionDownloadFiles])
      | .error e =>
        (.ok ("Error downloading competition files: " ++ e),
         mkEvs ++ [.call .competitionDownloadFiles]
           ++ (if use_temp then [Event.rmtree path'] else []))

/-- `competition_list_files` (lines 150-180). -/
def competition_list_files (gate : Gate) (apiRes : Except String (List PyVal)) : OpResult :=
  if gate.1 = false then (.ok gate.2, [])
  else
    match apiRes with
    | .error e => (.ok ("Error listing competition files: " ++ e), [.call .competitionListFiles])
    | .ok files =>
      match dumps (.list (files.map (fun file_obj => .dict (projectFile file_obj)))) with
      | .ok s => (.ok s, [.call .competitionListFiles])
      | .error e => (.ok ("Error listing competition files: " ++ e), [.call .competitionListFiles])

/-- `competition_submissions` (lines 182-216). -/
def competition_submissions (gate : Gate) (apiRes : Except String (List PyVal)) : OpResult :=
  if gate.1 = false then (.ok gate.2, [])
  else
    match apiRes with
    | .error e => (.ok ("Error listing submissions: " ++ e), [.call .competitionSubmissions])
    | .ok subs =>
      match dumps (.list (subs.map (fun sub => .dict (projectSubmission sub)))) with
      | .ok s => (.ok s, [.call .competitionSubmissions])
      | .error e => (.ok ("Error listing submissions: " ++ e), [.call .competitionSubmissions])

/-- `json.dumps(leaderboard, indent=2)` wrapped in the operation's `try`:
a `TypeError` from `dumps` becomes the operation's error string. -/
def leaderboardDump (lb : PyVal) : Except String String :=
  match dumps lb with
  | .ok s => .ok s
  | .error e => .ok ("Error retrieving leaderboard: " ++ e)

/-- `competition_leaderboard` (lines 218-275), with the exact nesting of the
source: the projection loop and the `str` fallback sit INSIDE the
`isinstance(leaderboard, dict) and 'submissions' in leaderboard` block, and
the final `json.dumps` is the fallback for every other shape. -/
def competition_leaderboard (gate : Gate) (apiRes : Except String PyVal) : OpResult :=
  if gate.1 = false then (.ok gate.2, [])
  else
    match apiRes with
    | .error e => (.ok ("Error retrieving leaderboard: " ++ e), [.call .competitionLeaderboardView])
    | .ok leaderboard =>
      let out :=
        if isDict leaderboard && dictHasKey leaderboard "submissions" then
          if isList leaderboard then
            let processed_leaderboard :=
              (match leaderboard with
               | .list xs => xs
               | _ => []).map (fun entry => PyVal.dict (projectLeaderboardEntry entry))
            leaderboardDump (.list processed_leaderboard)
          else if isDict leaderboard then
            leaderboardDump leaderboard
          else
            .ok (pyStr leaderboard)
        else
          leaderboardDump leaderboard
      (out, [.call .competitionLeaderboardView])

/-- The response object of `api.competition_submit`: the two attributes the
code inspects, absent or a string (the client's documented shape). -/
structure SubmitResponse where
  message : Option String
  status : Option String

/-- `competition_submit` (lines 277-327). `isfile` is `os.path.isfile` at
`file_path`; `sizeRes`/`mtimeRes` are `os.path.getsize`/`os.path.getmtime`
(inside the `try`, so a raise is stringified); `apiRes` is the client call. -/
def competition_submit (gate : Gate) (file_path : String)
    (isfile : Bool) (sizeRes mtimeRes : Except String Int)
    (apiRes : Except String SubmitResponse) : OpResult :=
  if gate.1 = false then (.ok gate.2, [])
  else
    if isfile = false then (.ok ("Error: File not found at " ++ file_path), [])
    else
      match sizeRes with
      | .error e => (.ok ("Error submitting to competition: " ++ e), [])
      | .ok _ =>
        match mtimeRes with
        | .error e => (.ok ("Error submitting to competition: " ++ e), [])
        | .ok _ =>
          match apiRes with
          | .error e =>
            (.ok ("Error submitting to competition: " ++ e), [.call .competitionSubmit])
          | .ok response =>
            let status_message :=
              match response.message with
              | some m => if m != "" then m else
                match response.status with
                | some st => if st != "" then "Submission status: " ++ st
                             else "Submission successful."
                | Option.none => "Submission successful."
              | Option.none =>
                match response.status with
                | some st => if st != "" then "Submission status: " ++ st
                             else "Submission successful."
                | Option.none => "Submission successful."
            (.ok status_message, [.call .competitionSubmit])

/-- The process environment slice the resolver touches:
`os.environ.get("KAGGLE_USERNAME")` and `os.environ.get("KAGGLE_KEY")`
(`none` = variable unset). -/
structure Env where
  username : Option String
  key : Option String
  deriving Repr, DecidableEq

/-- `not os.environ.get(name)`: unset or empty both count as missing. -/
def envMissing : Option String → Bool
  | Option.none => true
  | some s => s == ""

/-- What the filesystem holds at one candidate credential path:
whether `location.exists()`, and the outcome of `open` + `json.load`
(`.error` = any I/O or parse exception). -/
structure FileInfo where
  fileExists : Bool
  parsed : Except String PyVal

/-- `key in credentials` for a parsed JSON value, as Python `in`: key
membership for dicts, element membership for lists, substring for strings,
`TypeError` otherwise. -/
def pyContains (v : PyVal) (k : String) : Except String Bool :=
  match v with
  | .dict es => .ok (es.lookup k).isSome
  | .list xs => .ok (xs.any (fun x => match x with | .str s => s == k | _ => false))
  | .str s => .ok ((s.splitOn k).length != 1)
  | _ => .error "argument is not iterable"

/-- `credentials[k]` for a parsed JSON value: dict lookup (`KeyError` when
absent), `TypeError` on any other shape. -/
def pyGetItem (v : PyVal) (k : String) : Except String PyVal :=
  match v with
  | .dict es =>
    match es.lookup k with
    | some w => .ok w
    | Option.none => .error "KeyError"
  | _ => .error "indices must be integers"

/-- The body of the `try` for one existing candidate file (src/server.py
lines 81-92), given the parsed value: checks `"username" in credentials and
"key" in credentials`, then performs the two `os.environ` assignments in
order (`os.environ[...] = v` raises `TypeError` on a non-string value, after
the first assignment may already have landed). Returns the new environment
and whether the loop `break`s; any exception is swallowed by the `except`
(continue scanning). -/
def applyCredentials (env : Env) (credentials : PyVal) : Env × Bool :=
  match pyContains credentials "username" with
  | .error _ => (env, false)
  | .ok false => (env, false)
  | .ok true =>
    match pyContains credentials "key" with
    | .error _ => (env, false)
    | .ok false => (env, false)
    | .ok true =>
      match pyGetItem credentials "username" with
      | .error _ => (env, false)
      | .ok u =>
        match u with
        | .str us =>
          let env1 : Env := { env with username := some us }
          match pyGetItem credentials "key" with
          | .error _ => (env1, false)
          | .ok k =>
            match k with
            | .str ks => ({ env1 with key := some ks }, true)
            | _ => (env1, false)
        | _ => (env, false)

/-- The scan loop `for location in kaggle_locations` (lines 79-92): probe
each path; for an existing one, `open` it and run the `try` body; stop at the
first `break`. -/
def scanLocations (env : Env) (locs : List String) (files : String → FileInfo) :
    Env × List Event :=
  match locs with
  | [] => (env, [])
  | loc :: rest =>
    let fi := files loc
    if fi.fileExists then
      match fi.parsed with
      | .error _ =>
        let r := scanLocations env rest files
        (r.1, Event.pathProbe loc :: Event.openFile loc :: r.2)
      | .ok credentials =>
        let ec := applyCredentials env credentials
        if ec.2 then (ec.1, [Event.pathProbe loc, Event.openFile loc])
        else
          let r := scanLocations ec.1 rest files
          (r.1, Event.pathProbe loc :: Event.openFile loc :: r.2)
    else
      let r := scanLocations env rest files
      (r.1, Event.pathProbe loc :: r.2)

/-- The two candidate paths, in the fixed scan order (lines 73-76). -/
def kaggle_locations : List String :=
  ["~/.kaggle/kaggle.json", "~/.config/kaggle/kaggle.json"]

/-- `load_kaggle_config` (lines 70-92): scan only when at least one of the
two environment variables is missing (Python truthiness). -/
def load_kaggle_config (env : Env) (files : String → FileInfo) : Env × List Event :=
  if envMissing env.username || envMissing env.key then
    scanLocations env kaggle_locations files
  else (env, [])

/-! ### Helper lemmas -/

theorem competitions_list_isOk (gate : Gate) (r : Except String (List PyVal)) :
    (competitions_list gate r).1.isOk = true := by
  unfold competitions_list
  repeat' split
  all_goals rfl

theorem competition_details_isOk (gate : Gate) (r : Except String PyVal) :
    (competition_details gate r).1.isOk = true := by
  unfold competition_details
  repeat' split
  all_goals rfl

theorem competition_download_files_isOk (gate : Gate) (path file_name tmpName : String)
    (fileRes allRes : Except String Unit) (b : Bool) :
    (competition_download_files gate path file_name tmpName fileRes allRes b).1.isOk = true := by
  unfold competition_download_files
  dsimp only
  repeat' split
  all_goals rfl

theorem competition_list_files_isOk (gate : Gate) (r : Except String (List PyVal)) :
    (competition_list_files gate r).1.isOk = true := by
  unfold competition_list_files
  repeat' split
  all_goals rfl

theorem competition_submissions_isOk (gate : Gate) (r : Except String (List PyVal)) :
    (competition_submissions gate r).1.isOk = true := by
  unfold competition_submissions
  repeat' split
  all_goals rfl

theorem competition_leaderboard_isOk (gate : Gate) (r : Except String PyVal) :
    (competition_leaderboard gate r).1.isOk = true := by
  unfold competition_leaderboard leaderboardDump
  dsimp only
  repeat' split
  all_goals rfl

theorem competition_submit_isOk (gate : Gate) (file_path : String) (isfile : Bool)
    (sizeRes mtimeRes : Except String Int) (apiRes : Except String SubmitResponse) :
    (competition_submit gate file_path isfile sizeRes mtimeRes apiRes).1.isOk = true := by
  unfold competition_submit
  repeat' split
  all_goals rfl

/-! ### Claims -/

/-- C2: for every gate result and every behaviour of the underlying client —
including raising on every call — each of the seven competition tool
operations terminates with a single string result (`.ok`); no exception ever
crosses the operation boundary (`.error` is unreachable). -/
theorem c2_every_operation_returns_string (gate : Gate)
    (r1 r3 r4 : Except String (List PyVal)) (r2 r5 : Except String PyVal)
    (path file_name tmpName file_path : String)
    (fileRes allRes : Except String Unit) (b isfile : Bool)
    (sizeRes mtimeRes : Except String Int) (subRes : Except String SubmitResponse) :
    (competitions_list gate r1).1.isOk = true
    ∧ (competition_details gate r2).1.isOk = true
    ∧ (competition_download_files gate path file_name tmpName fileRes allRes b).1.isOk = true
    ∧ (competition_list_files gate r3).1.isOk = true
    ∧ (competition_submissions gate r4).1.isOk = true
    ∧ (competition_leaderboard gate r5).1.isOk = true
    ∧ (competition_submit gate file_path isfile sizeRes mtimeRes subRes).1.isOk = true :=
  ⟨competitions_list_isOk gate r1,
   competition_details_isOk gate r2,
   competition_download_files_isOk gate path file_name tmpName fileRes allRes b,
   competition_list_files_isOk gate r3,
   competition_submissions_isOk gate r4,
   competition_leaderboard_isOk gate r5,
   competition_submit_isOk gate file_path isfile sizeRes mtimeRes subRes⟩

/-- C3: when the authentication gate reports `(False, msg)`, every one of the
seven operations returns `msg` verbatim as its whole output and performs no
client call and no other side effect (empty event trace). -/
theorem c3_gate_failure_short_circuits (m : String)
    (r1 r3 r4 : Except String (List PyVal)) (r2 r5 : Except String PyVal)
    (path file_name tmpName file_path : String)
    (fileRes allRes : Except String Unit) (b isfile : Bool)
    (sizeRes mtimeRes : Except String Int) (subRes : Except String SubmitResponse) :
    competitions_list (false, m) r1 = (.ok m, [])
    ∧ competition_details (false, m) r2 = (.ok m, [])
    ∧ competition_download_files (false, m) path file_name tmpName fileRes allRes b = (.ok m, [])
    ∧ competition_list_files (false, m) r3 = (.ok m, [])
    ∧ competition_submissions (false, m) r4 = (.ok m, [])
    ∧ competition_leaderboard (false, m) r5 = (.ok m, [])
    ∧ competition_submit (false, m) file_path isfile sizeRes mtimeRes subRes = (.ok m, []) :=
  ⟨rfl, rfl, rfl, rfl, rfl, rfl, rfl⟩

/-- C5: with the gate passed and no file at `file_path`, the submission
operation returns exactly `"Error: File not found at <path>"` and performs
zero calls into the underlying client. -/
theorem c5_submit_missing_file (g file_path : String)
    (sizeRes mtimeRes : Except String Int) (subRes : Except String SubmitResponse) :
    competition_submit (true, g) file_path false sizeRes mtimeRes subRes
      = (.ok ("Error: File not found at " ++ file_path), []) :=
  rfl

/-- Recognizes the `shutil.rmtree` event. -/
def isRmtreeEvent : Event → Bool
  | .rmtree _ => true
  | _ => false

/-- C4: download with an empty caller path creates a temp directory whose
name appears in the success message; if the client call then raises, exactly
that directory is removed (and the cleanup-failure flag never changes the
outcome) and the message starts with the fixed error prefix; with a caller
supplied (nonempty) path no removal ever happens. -/
theorem c4_download_temp_lifecycle (g file_name tmpName path e : String)
    (fileRes allRes : Except String Unit) (b b' : Bool) :
    (competition_download_files (true, g) "" "" tmpName fileRes (.ok ()) b
      = (.ok ("Downloaded all competition files to " ++ tmpName),
         [.mkdtemp tmpName, .call .competitionDownloadFiles]))
    ∧ (file_name ≠ "" →
        competition_download_files (true, g) "" file_name tmpName (.ok ()) allRes b
          = (.ok ("Downloaded file \x27" ++ file_name ++ "\x27 to " ++ tmpName),
             [.mkdtemp tmpName, .call .competitionDownloadFile]))
    ∧ (competition_download_files (true, g) "" "" tmpName fileRes (.error e) b
        = (.ok ("Error downloading competition files: " ++ e),
           [.mkdtemp tmpName, .call .competitionDownloadFiles, .rmtree tmpName]))
    ∧ (competition_download_files (true, g) "" "" tmpName fileRes (.error e) b
        = competition_download_files (true, g) "" "" tmpName fileRes (.error e) b')
    ∧ (path ≠ "" →
        ((competition_download_files (true, g) path file_name tmpName fileRes allRes b).2.all
          (fun ev => !(isRmtreeEvent ev))) = true) := by
  refine ⟨rfl, ?_, rfl, rfl, ?_⟩
  · intro hfn
    simp [competition_download_files, hfn]
  · intro hp
    unfold competition_download_files
    simp [hp, isRmtreeEvent]
    all_goals (repeat' split)
    all_goals simp [isRmtreeEvent]

/-- Witness for C4 at concrete inputs. -/
theorem c4_witness :
    (competition_download_files (true, "") "" "" "/tmp/tmpabc123" (.ok ()) (.ok ()) false
      = (.ok "Downloaded all competition files to /tmp/tmpabc123",
         [.mkdtemp "/tmp/tmpabc123", .call .competitionDownloadFiles]))
    ∧ (competition_download_files (true, "") "" "sub.csv" "/tmp/tmpabc123" (.ok ()) (.ok ()) false
      = (.ok "Downloaded file \x27sub.csv\x27 to /tmp/tmpabc123",
         [.mkdtemp "/tmp/tmpabc123", .call .competitionDownloadFile]))
    ∧ (competition_download_files (true, "") "" "" "/tmp/tmpabc123" (.ok ()) (.error "403 Forbidden") false
      = (.ok "Error downloading competition files: 403 Forbidden",
         [.mkdtemp "/tmp/tmpabc123", .call .competitionDownloadFiles, .rmtree "/tmp/tmpabc123"]))
    ∧ ((competition_download_files (true, "") "/data" "" "/tmp/tmpabc123" (.ok ()) (.error "403 Forbidden") false).2.all
        (fun ev => !(isRmtreeEvent ev))) = true := by
  obtain ⟨h1, h2, h3, _h4, h5⟩ :=
    c4_download_temp_lifecycle "" "sub.csv" "/tmp/tmpabc123" "/data" "403 Forbidden"
      (.ok ()) (.ok ()) false false
  exact ⟨h1, h2 (by decide), h3, h5 (by decide)⟩

/-- A leaderboard entry as the client would model it: an object carrying the
five documented attributes. -/
def lbEntry0 : PyVal :=
  .obj "LeaderboardEntry"
    [("teamId", .int 7), ("teamName", .str "alpha"),
     ("submissionDate", .datetime "2024-01-01 00:00:00"),
     ("score", .str "0.99"), ("rank", .int 1)]

/-- A plain-list leaderboard return value. -/
def lbListRaw : PyVal := .list [lbEntry0]

/-- A dict-wrapped leaderboard return value (`'submissions'` key). -/
def lbWrappedRaw : PyVal := .dict [("submissions", .list [.dict [("teamId", .int 7)]])]

/-- C1: the four-branch shape disambiguation claimed for the leaderboard
operation does not happen. The projection branch is nested under the
dict-only guard `isinstance(leaderboard, dict) and 'submissions' in
leaderboard`, so it is unreachable: a plain list of entry objects falls
through to `json.dumps`, which raises on the model objects and the operation
returns the stringified `TypeError` instead of the projected list (conjuncts
1-3); a dict wrapping `'submissions'` is serialized whole, not projected
(conjunct 4); a raw string is JSON-quoted by the fallback `json.dumps`, not
returned verbatim (conjuncts 5-6). -/
theorem c1_leaderboard_shape_dispatch_bug :
    competition_leaderboard (true, "") (.ok lbListRaw)
      = (.ok "Error retrieving leaderboard: Object of type LeaderboardEntry is not JSON serializable",
         [.call .competitionLeaderboardView])
    ∧ dumps (.list [.dict (projectLeaderboardEntry lbEntry0)])
      = .ok "[\n  \x7b\n    \"teamId\": 7,\n    \"teamName\": \"alpha\",\n    \"submissionDate\": \"2024-01-01 00:00:00\",\n    \"score\": \"0.99\",\n    \"rank\": 1\n  \x7d\n]"
    ∧ ("Error retrieving leaderboard: Object of type LeaderboardEntry is not JSON serializable"
        ≠ "[\n  \x7b\n    \"teamId\": 7,\n    \"teamName\": \"alpha\",\n    \"submissionDate\": \"2024-01-01 00:00:00\",\n    \"score\": \"0.99\",\n    \"rank\": 1\n  \x7d\n]")
    ∧ competition_leaderboard (true, "") (.ok lbWrappedRaw)
      = (.ok "\x7b\n  \"submissions\": [\n    \x7b\n      \"teamId\": 7\n    \x7d\n  ]\n\x7d",
         [.call .competitionLeaderboardView])
    ∧ competition_leaderboard (true, "") (.ok (.str "rank,teamId\n1,7"))
      = (.ok "\"rank,teamId\\n1,7\"", [.call .competitionLeaderboardView])
    ∧ ("\"rank,teamId\\n1,7\"" ≠ "rank,teamId\n1,7") :=
  ⟨rfl, rfl, by decide, rfl, rfl, by decide⟩

/-- An environment with both variables set, one of them to the empty string
(`KAGGLE_USERNAME=` is set but falsy in Python). -/
def env6 : Env := ⟨some "", some "envkey"⟩

/-- A filesystem whose first candidate path holds valid credentials. -/
def files6 : String → FileInfo := fun loc =>
  if loc = "~/.kaggle/kaggle.json" then
    ⟨true, .ok (.dict [("username", .str "fileuser"), ("key", .str "filekey")])⟩
  else ⟨false, .error "unused"⟩

/-- C6 counterexample: with both environment variables set but the username
set to the empty string, the resolver still probes and opens the first
candidate file and overwrites the environment — the truthiness test
`not os.environ.get(...)` treats a set-but-empty variable as missing. -/
theorem c6_counterexample :
    env6.username.isSome = true
    ∧ env6.key.isSome = true
    ∧ load_kaggle_config env6 files6
      = (⟨some "fileuser", some "filekey"⟩,
         [.pathProbe "~/.kaggle/kaggle.json", .openFile "~/.kaggle/kaggle.json"])
    ∧ (⟨some "fileuser", some "filekey"⟩ : Env) ≠ env6 :=
  ⟨rfl, rfl, rfl, by decide⟩

/-- C6 (amended): when both environment variables are set to nonempty
strings, the resolver touches no candidate file path and leaves the
environment unchanged. -/
theorem c6_env_precedence (env : Env) (files : String → FileInfo)
    (hu : envMissing env.username = false) (hk : envMissing env.key = false) :
    load_kaggle_config env files = (env, []) := by
  simp [load_kaggle_config, hu, hk]

/-- Witness for C6's amended theorem at a concrete environment. -/
theorem c6_env_precedence_witness :
    load_kaggle_config ⟨some "user", some "key"⟩ (fun _ => ⟨false, .error "io"⟩)
      = (⟨some "user", some "key"⟩, []) :=
  c6_env_precedence ⟨some "user", some "key"⟩ (fun _ => ⟨false, .error "io"⟩) rfl rfl

/-- C7: with neither variable set, a first candidate that exists but fails to
parse is swallowed and scanning continues; a second candidate parsing to an
object with string `username` and `key` fields populates both variables. -/
theorem c7_malformed_first_candidate (files : String → FileInfo)
    (e u k : String) (d : List (String × PyVal))
    (h1e : (files "~/.kaggle/kaggle.json").fileExists = true)
    (h1p : (files "~/.kaggle/kaggle.json").parsed = .error e)
    (h2e : (files "~/.config/kaggle/kaggle.json").fileExists = true)
    (h2p : (files "~/.config/kaggle/kaggle.json").parsed = .ok (.dict d))
    (hu : d.lookup "username" = some (.str u))
    (hk : d.lookup "key" = some (.str k)) :
    load_kaggle_config ⟨Option.none, Option.none⟩ files
      = (⟨some u, some k⟩,
         [.pathProbe "~/.kaggle/kaggle.json", .openFile "~/.kaggle/kaggle.json",
          .pathProbe "~/.config/kaggle/kaggle.json", .openFile "~/.config/kaggle/kaggle.json"]) := by
  simp [load_kaggle_config, kaggle_locations, scanLocations, applyCredentials,
        pyContains, pyGetItem, envMissing, h1e, h1p, h2e, h2p, hu, hk]

/-- A filesystem with a malformed first candidate and valid second one. -/
def files7 : String → FileInfo := fun loc =>
  if loc = "~/.kaggle/kaggle.json" then
    ⟨true, .error "Expecting value: line 1 column 1 (char 0)"⟩
  else ⟨true, .ok (.dict [("username", .str "u2"), ("key", .str "k2")])⟩

/-- Witness for C7 at concrete inputs. -/
theorem c7_witness :
    load_kaggle_config ⟨Option.none, Option.none⟩ files7
      = (⟨some "u2", some "k2"⟩,
         [.pathProbe "~/.kaggle/kaggle.json", .openFile "~/.kaggle/kaggle.json",
          .pathProbe "~/.config/kaggle/kaggle.json", .openFile "~/.config/kaggle/kaggle.json"]) :=
  c7_malformed_first_candidate files7 "Expecting value: line 1 column 1 (char 0)" "u2" "k2"
    [("username", .str "u2"), ("key", .str "k2")] rfl rfl rfl rfl rfl rfl

/-- C10: with exactly one of the two environment variables set, scanning is
still performed, and the first existing candidate that parses to an object
with string `username` and `key` fields overwrites both variables, including
the one that was already set — whether the first or only the second
candidate path exists. -/
theorem c10_single_env_var_overwritten (env : Env) (files : String → FileInfo)
    (d : List (String × PyVal)) (u k : String)
    (hone : (env.username.isSome = true ∧ env.key = Option.none)
          ∨ (env.username = Option.none ∧ env.key.isSome = true))
    (hu : d.lookup "username" = some (.str u))
    (hk : d.lookup "key" = some (.str k)) :
    ((files "~/.kaggle/kaggle.json").fileExists = true →
      (files "~/.kaggle/kaggle.json").parsed = .ok (.dict d) →
      load_kaggle_config env files
        = (⟨some u, some k⟩,
           [.pathProbe "~/.kaggle/kaggle.json", .openFile "~/.kaggle/kaggle.json"]))
    ∧ ((files "~/.kaggle/kaggle.json").fileExists = false →
      (files "~/.config/kaggle/kaggle.json").fileExists = true →
      (files "~/.config/kaggle/kaggle.json").parsed = .ok (.dict d) →
      load_kaggle_config env files
        = (⟨some u, some k⟩,
           [.pathProbe "~/.kaggle/kaggle.json", .pathProbe "~/.config/kaggle/kaggle.json",
            .openFile "~/.config/kaggle/kaggle.json"])) := by
  obtain ⟨eu, ek⟩ := env
  have hcond : (envMissing eu || envMissing ek) = true := by
    rcases hone with ⟨_, hk1⟩ | ⟨hu1, _⟩
    · simp only at hk1
      rw [hk1]
      simp [envMissing]
    · simp only at hu1
      rw [hu1]
      simp [envMissing]
  constructor
  · intro h1e h1p
    simp [load_kaggle_config, kaggle_locations, scanLocations, applyCredentials,
          pyContains, pyGetItem, hcond, h1e, h1p, hu, hk]
  · intro h1e h2e h2p
    simp [load_kaggle_config, kaggle_locations, scanLocations, applyCredentials,
          pyContains, pyGetItem, hcond, h1e, h2e, h2p, hu, hk]

/-- A filesystem where only the first candidate exists, with credentials. -/
def files10a : String → FileInfo := fun loc =>
  if loc = "~/.kaggle/kaggle.json" then
    ⟨true, .ok (.dict [("username", .str "u3"), ("key", .str "k3")])⟩
  else ⟨false, .error "unused"⟩

/-- A filesystem where only the second candidate exists, with credentials. -/
def files10b : String → FileInfo := fun loc =>
  if loc = "~/.kaggle/kaggle.json" then ⟨false, .error "unused"⟩
  else ⟨true, .ok (.dict [("username", .str "u3"), ("key", .str "k3")])⟩

/-- Witness for C10: username already set, key unset; both env vars end up
overwritten from the file, in both filesystem configurations. -/
theorem c10_witness :
    load_kaggle_config ⟨some "preset-user", Option.none⟩ files10a
      = (⟨some "u3", some "k3"⟩,
         [.pathProbe "~/.kaggle/kaggle.json", .openFile "~/.kaggle/kaggle.json"])
    ∧ load_kaggle_config ⟨some "preset-user", Option.none⟩ files10b
      = (⟨some "u3", some "k3"⟩,
         [.pathProbe "~/.kaggle/kaggle.json", .pathProbe "~/.config/kaggle/kaggle.json",
          .openFile "~/.config/kaggle/kaggle.json"]) :=
  ⟨(c10_single_env_var_overwritten ⟨some "preset-user", Option.none⟩ files10a
      [("username", .str "u3"), ("key", .str "k3")] "u3" "k3"
      (Or.inl ⟨rfl, rfl⟩) rfl rfl).1 rfl rfl,
   (c10_single_env_var_overwritten ⟨some "preset-user", Option.none⟩ files10b
      [("username", .str "u3"), ("key", .str "k3")] "u3" "k3"
      (Or.inl ⟨rfl, rfl⟩) rfl rfl).2 rfl rfl rfl⟩

/-- The fixed allow-list of keys of a projected competition record, in the
serialization order of the dict literal. -/
def competitionKeys : List String :=
  ["ref", "title", "url", "category", "deadline", "reward", "teamCount",
   "userHasEntered", "description"]

/-- C8: the list normalizer of `competitions_list` maps N raw records to N
projected records; every projected record carries exactly the fixed
allow-list of keys in a constant order (hence the serialized key ordering is
the same on every call with the same input); a record with no `reward`
attribute projects `reward` to null instead of raising; and when the
projected list serializes, the operation returns exactly that serialization. -/
theorem c8_list_normalizer (g : String) (raws : List PyVal) :
    ((raws.map (fun comp => PyVal.dict (projectCompetition comp))).length = raws.length)
    ∧ (∀ comp, (projectCompetition comp).map Prod.fst = competitionKeys)
    ∧ (∀ cls attrs, attrs.lookup "reward" = Option.none →
        (projectCompetition (.obj cls attrs)).lookup "reward" = some PyVal.none)
    ∧ (∀ s, dumps (.list (raws.map (fun comp => PyVal.dict (projectCompetition comp)))) = .ok s →
        competitions_list (true, g) (.ok raws) = (.ok s, [.call .competitionsList])) := by
  refine ⟨by simp, fun comp => rfl, ?_, ?_⟩
  · intro cls attrs h
    simp only [projectCompetition, pyGetattr, h]
    rfl
  · intro s hs
    simp [competitions_list, hs]

/-- Raw competition record with a `reward` attribute. -/
def compA : PyVal :=
  .obj "Competition" [("ref", .str "titanic"), ("title", .str "Titanic"), ("reward", .str "Knowledge")]

/-- Raw competition record lacking a `reward` attribute. -/
def compB : PyVal :=
  .obj "Competition" [("ref", .str "digits"), ("title", .str "Digit Recognizer")]

/-- Raw competition record with a `reward` attribute. -/
def compC : PyVal :=
  .obj "Competition" [("ref", .str "houses"), ("title", .str "House Prices"), ("reward", .str "Swag")]

/-- Three entity-like records, the middle one lacking `reward`. -/
def raws3 : List PyVal := [compA, compB, compC]

/-- Witness for C8 on the three-record fixture. -/
theorem c8_witness :
    (raws3.map (fun comp => PyVal.dict (projectCompetition comp))).length = raws3.length
    ∧ (projectCompetition compB).map Prod.fst = competitionKeys
    ∧ (projectCompetition (.obj "Competition"
        [("ref", .str "digits"), ("title", .str "Digit Recognizer")])).lookup "reward"
        = some PyVal.none
    ∧ competitions_list (true, "") (.ok raws3)
      = (.ok "[\n  \x7b\n    \"ref\": \"titanic\",\n    \"title\": \"Titanic\",\n    \"url\": null,\n    \"category\": null,\n    \"deadline\": null,\n    \"reward\": \"Knowledge\",\n    \"teamCount\": null,\n    \"userHasEntered\": null,\n    \"description\": null\n  \x7d,\n  \x7b\n    \"ref\": \"digits\",\n    \"title\": \"Digit Recognizer\",\n    \"url\": null,\n    \"category\": null,\n    \"deadline\": null,\n    \"reward\": null,\n    \"teamCount\": null,\n    \"userHasEntered\": null,\n    \"description\": null\n  \x7d,\n  \x7b\n    \"ref\": \"houses\",\n    \"title\": \"House Prices\",\n    \"url\": null,\n    \"category\": null,\n    \"deadline\": null,\n    \"reward\": \"Swag\",\n    \"teamCount\": null,\n    \"userHasEntered\": null,\n    \"description\": null\n  \x7d\n]",
         [.call .competitionsList]) := by
  obtain ⟨h1, h2, h3, h4⟩ := c8_list_normalizer "" raws3
  exact ⟨h1, h2 compB,
         h3 "Competition" [("ref", .str "digits"), ("title", .str "Digit Recognizer")] rfl,
         h4 _ rfl⟩

/-- Recognizes a raw (non-stringified) temporal value. -/
def isDatetimeVal : PyVal → Bool
  | .datetime _ => true
  | _ => false

/-- A competition record whose `deadline` attribute is present but falsy
(the empty string). -/
def compEmptyDeadline : PyVal := .obj "Competition" [("deadline", .str "")]

/-- C9 counterexample: a `deadline` attribute that is present (the empty
string) is projected to null, not to its string form `""` — the code tests
truthiness (`str(v) if v else None`), not presence. -/
theorem c9_counterexample :
    pyGetattr compEmptyDeadline "deadline" .none = .str ""
    ∧ (projectCompetition compEmptyDeadline).lookup "deadline" = some PyVal.none
    ∧ some PyVal.none ≠ some (PyVal.str (pyStr (PyVal.str ""))) :=
  ⟨rfl, rfl, by simp [pyStr]⟩

/-- C9 (amended): in every projection, each timestamp/date-like field
(`deadline`, `creationDate`, `date`, `submissionDate`) is rendered as the
`str()` form of its value when the attribute is present with a truthy value,
and as null when it is absent or falsy; in particular the projected value is
never a raw datetime object. -/
theorem c9_temporal_stringification (comp det file_obj sub entry : PyVal) :
    ((projectCompetition comp).lookup "deadline"
      = some (if truthy (pyGetattr comp "deadline" .none)
              then .str (pyStr (pyGetattr comp "deadline" .none)) else .none))
    ∧ ((projectCompetitionDetails det).lookup "deadline"
      = some (if truthy (pyGetattr det "deadline" .none)
              then .str (pyStr (pyGetattr det "deadline" .none)) else .none))
    ∧ ((projectFile file_obj).lookup "creationDate"
      = some (if truthy (pyGetattr file_obj "creationDate" .none)
              then .str (pyStr (pyGetattr file_obj "creationDate" .none)) else .none))
    ∧ ((projectSubmission sub).lookup "date"
      = some (if truthy (pyGetattr sub "date" .none)
              then .str (pyStr (pyGetattr sub "date" .none)) else .none))
    ∧ ((projectLeaderboardEntry entry).lookup "submissionDate"
      = some (if truthy (pyGetattr entry "submissionDate" .none)
              then .str (pyStr (pyGetattr entry "submissionDate" .none)) else .none))
    ∧ (((projectCompetition comp).lookup "deadline").all (fun v => !(isDatetimeVal v)) = true)
    ∧ (((projectCompetitionDetails det).lookup "deadline").all (fun v => !(isDatetimeVal v)) = true)
    ∧ (((projectFile file_obj).lookup "creationDate").all (fun v => !(isDatetimeVal v)) = true)
    ∧ (((projectSubmission sub).lookup "date").all (fun v => !(isDatetimeVal v)) = true)
    ∧ (((projectLeaderboardEntry entry).lookup "submissionDate").all (fun v => !(isDatetimeVal v)) = true) := by
  refine ⟨rfl, rfl, rfl, rfl, rfl, ?_, ?_, ?_, ?_, ?_⟩
  · cases h : truthy (pyGetattr comp "deadline" .none) <;>
      simp only [projectCompetition, h] <;> rfl
  · cases h : truthy (pyGetattr det "deadline" .none) <;>
      simp only [projectCompetitionDetails, h] <;> rfl
  · cases h : truthy (pyGetattr file_obj "creationDate" .none) <;>
      simp only [projectFile, h] <;> rfl
  · cases h : truthy (pyGetattr sub "date" .none) <;>
      simp only [projectSubmission, h] <;> rfl
  · cases h : truthy (pyGetattr entry "submissionDate" .none) <;>
      simp only [projectLeaderboardEntry, h] <;> rfl

end KaggleMCP
